import Mathlib

/-!
Verification of the upstream-aggregation request handlers of the
riot-api-test repository: a shallow embedding of the three server-side
route handlers (`lol-history`, `lol-player-stats`, and the match-details
handler) together with proofs of the specified properties.

Conventions of the embedding:
* an upstream HTTP response is reduced to its status code; `Resp.ok`
  mirrors the WHATWG `Response.ok` predicate (status in 200..299);
* JavaScript numbers that the handlers only ever hold as non-negative
  integers are embedded as `Nat`; values that flow through floating-point
  division before being formatted are embedded as `ℚ`;
* `Number.prototype.toFixed(d)` is embedded as `jsToFixed d` (round to
  nearest multiple of `10^-d`, ties away from zero towards the larger
  integer, as in the ECMAScript specification, for the non-negative
  arguments that occur here) and `Math.round` as `jsRound`;
* `Array.prototype.sort(cmp)` with a consistent comparator is embedded as
  the stable `List.insertionSort` with the preorder induced by `cmp`.
-/

/-- An upstream HTTP response, reduced to its status code. -/
structure Resp where
  status : Nat
deriving Repr, DecidableEq

/-- `Response.ok`: true exactly for a 2xx status. -/
def Resp.ok (r : Resp) : Bool :=
  decide (200 ≤ r.status) && decide (r.status ≤ 299)

/-- `Math.round`: round half towards positive infinity. -/
def jsRound (q : ℚ) : ℤ := ⌊q + 1/2⌋

/-- Rendering step of `toFixed`: given the integer `scaled = round(q * 10^digits)`,
print it with a decimal point before the last `digits` digits. -/
def renderFixed (digits : Nat) (scaled : ℤ) : String :=
  let p : ℤ := (10 : ℤ) ^ digits
  let ip : ℤ := scaled / p
  let fp : Nat := (scaled % p).toNat
  let fs : String := toString fp
  let pad : String := String.mk (List.replicate (digits - fs.length) '0')
  toString ip ++ "." ++ pad ++ fs

/-- `Number.prototype.toFixed digits` for a non-negative argument:
round `q` to `digits` decimal places (nearest, ties upward, as the
ECMAScript specification picks the larger candidate integer) and render
with exactly `digits` fractional digits. -/
def jsToFixed (digits : Nat) (q : ℚ) : String :=
  renderFixed digits (jsRound (q * (10 : ℚ) ^ digits))

theorem jsToFixed_eq_renderFixed {d : Nat} {q : ℚ} {n : ℤ}
    (h : jsRound (q * (10 : ℚ) ^ d) = n) : jsToFixed d q = renderFixed d n := by
  rw [jsToFixed, h]

/-- `String.prototype.padStart(2, "0")` as used on the seconds part of a
match duration. -/
def padStart2 (s : String) : String :=
  String.mk (List.replicate (2 - s.length) '0') ++ s

section Retry

/-!
## The shared retry wrapper (`fetchWithRetry`, src/app/api/lol-player-stats/route.ts)

```js
const fetchWithRetry = async (url, options, maxRetries = 3) => {
  for (let attempt = 1; attempt <= maxRetries; attempt++) {
    const response = await fetch(url, options);
    if (response.status === 429) {
      await new Promise((resolve) => setTimeout(resolve, attempt * 2000));
      continue;
    }
    return response;
  }
  // If all retries failed, return the last response
  return await fetch(url, options);
};
```

The upstream endpoint is embedded as a function `responses : Nat → Resp`
giving the response received by the `n`-th fetch issued for this request
(fetches are numbered from 1).  The outcome records the returned
response, the total number of fetches issued, and the waits (in
milliseconds) performed between fetches.
-/

/-- Outcome of a `fetchWithRetry` call: the response returned to the
caller, the total number of `fetch` invocations issued, and the list of
sleep durations (ms) performed. -/
structure RetryOutcome where
  resp : Resp
  fetches : Nat
  waitsMs : List Nat
deriving Repr, DecidableEq

/-- The retry loop body: `attempt` is the number of the next fetch,
`rem` the number of loop iterations still allowed.  When the loop is
exhausted the trailing `return await fetch(url, options)` issues one
more fetch and returns its response unconditionally. -/
def fetchWithRetryLoop (responses : Nat → Resp) (attempt : Nat) : Nat → RetryOutcome
  | 0 => ⟨responses attempt, attempt, []⟩
  | rem + 1 =>
    let r := responses attempt
    if r.status = 429 then
      let out := fetchWithRetryLoop responses (attempt + 1) rem
      ⟨out.resp, out.fetches, attempt * 2000 :: out.waitsMs⟩
    else
      ⟨r, attempt, []⟩

/-- `fetchWithRetry` with its default `maxRetries = 3`. -/
def fetchWithRetry (responses : Nat → Resp) : RetryOutcome :=
  fetchWithRetryLoop responses 1 3

end Retry

section DataModel

/-!
## Upstream match data (Riot match-v5 JSON, fields actually read by the handlers)
-/

/-- A participant record of a match, restricted to the fields the three
handlers read.  Missing JSON string fields are embedded as `""` (the JS
code only ever tests them for equality with non-empty literals or for
falsiness). -/
structure Participant where
  puuid : String := ""
  summonerName : String := ""
  riotIdGameName : String := ""
  championName : String := ""
  teamId : Nat := 0
  kills : Nat := 0
  deaths : Nat := 0
  assists : Nat := 0
  teamPosition : String := ""
  lane : String := ""
  role : String := ""
  win : Bool := false
  totalDamageDealtToChampions : Nat := 0
  physicalDamageDealtToChampions : Nat := 0
  magicDamageDealtToChampions : Nat := 0
  trueDamageDealtToChampions : Nat := 0
  goldEarned : Nat := 0
  goldSpent : Nat := 0
  visionScore : Nat := 0
  wardsPlaced : Nat := 0
  wardsKilled : Nat := 0
  totalMinionsKilled : Nat := 0
  neutralMinionsKilled : Nat := 0
  item0 : Nat := 0
  item1 : Nat := 0
  item2 : Nat := 0
  item3 : Nat := 0
  item4 : Nat := 0
  item5 : Nat := 0
  item6 : Nat := 0
  summoner1Id : Nat := 0
  summoner2Id : Nat := 0
  champLevel : Nat := 0
  championTransform : Nat := 0
  individualPosition : String := ""
  participantId : Int := 0
deriving Repr, DecidableEq

/-- Per-objective team statistics (`team.objectives.<name>`). -/
structure ObjectiveStat where
  first : Bool := false
  kills : Nat := 0
deriving Repr, DecidableEq

/-- The team-level objective block of a match. -/
structure Objectives where
  baron : ObjectiveStat := {}
  dragon : ObjectiveStat := {}
  inhibitor : ObjectiveStat := {}
  riftHerald : ObjectiveStat := {}
  tower : ObjectiveStat := {}
deriving Repr, DecidableEq

/-- A team record of a match (`match.info.teams[i]`). -/
structure RiotTeam where
  teamId : Nat := 0
  win : Bool := false
  objectives : Objectives := {}
deriving Repr, DecidableEq

/-- `match.info`. -/
structure MatchInfo where
  participants : List Participant := []
  gameDuration : Nat := 0
  gameMode : String := ""
  gameType : String := ""
  gameCreation : Int := 0
  queueId : Nat := 0
  teams : List RiotTeam := []
deriving Repr, DecidableEq

/-- A full match payload; `metadataMatchId` embeds `match.metadata.matchId`. -/
structure MatchData where
  metadataMatchId : String := ""
  info : MatchInfo := {}
deriving Repr, DecidableEq

end DataModel

section HistoryHelpers

/-!
## Helpers of the history route (src/app/api/lol-history/route.ts)
-/

/-- `formatGameDuration`: MM:SS rendering of a duration in seconds. -/
def formatGameDuration (seconds : Nat) : String :=
  toString (seconds / 60) ++ ":" ++ padStart2 (toString (seconds % 60))

/-- `getTimeAgo`: coarse recency label relative to `now` (`Date.now()`),
both in milliseconds. -/
def getTimeAgo (now timestamp : Int) : String :=
  let diffMs := now - timestamp
  let diffMinutes := Int.fdiv diffMs (1000 * 60)
  let diffHours := Int.fdiv diffMs (1000 * 60 * 60)
  let diffDays := Int.fdiv diffMs (1000 * 60 * 60 * 24)
  if diffDays > 0 then
    toString diffDays ++ " day" ++ (if diffDays = 1 then "" else "s") ++ " ago"
  else if diffHours > 0 then
    toString diffHours ++ " hour" ++ (if diffHours = 1 then "" else "s") ++ " ago"
  else
    toString diffMinutes ++ " minute" ++ (if diffMinutes = 1 then "" else "s") ++ " ago"

/-- `getGameModeName`: queue-id lookup table with the raw `gameMode` as
fallback. -/
def getGameModeName (queueId : Nat) (gameMode : String) : String :=
  if queueId = 400 then "Normal Draft"
  else if queueId = 420 then "Ranked Solo/Duo"
  else if queueId = 430 then "Normal Blind"
  else if queueId = 440 then "Ranked Flex"
  else if queueId = 450 then "ARAM"
  else if queueId = 700 then "Clash"
  else if queueId = 900 then "URF"
  else if queueId = 1020 then "One for All"
  else if queueId = 1300 then "Nexus Blitz"
  else if queueId = 1400 then "Ultimate Spellbook"
  else if queueId = 1700 then "Arena"
  else if queueId = 1900 then "URF"
  else if queueId = 2000 then "Tutorial 1"
  else if queueId = 2010 then "Tutorial 2"
  else if queueId = 2020 then "Tutorial 3"
  else gameMode

/-- `getRole`: derive a display role from `teamPosition`, falling back to
`lane`/`role`, and finally to `"unknown"`. -/
def getRole (p : Participant) : String :=
  if p.teamPosition = "TOP" then "top"
  else if p.teamPosition = "JUNGLE" then "jungle"
  else if p.teamPosition = "MIDDLE" then "mid"
  else if p.teamPosition = "BOTTOM" then "adc"
  else if p.teamPosition = "UTILITY" then "support"
  else if p.lane = "TOP" then "top"
  else if p.lane = "JUNGLE" then "jungle"
  else if p.lane = "MIDDLE" then "mid"
  else if p.lane = "BOTTOM" ∧ p.role = "CARRY" then "adc"
  else if p.lane = "BOTTOM" ∧ p.role = "SUPPORT" then "support"
  else if p.lane = "UTILITY" then "support"
  else "unknown"

/-- The entry of `allPlayers` built for each participant. -/
structure TeamPlayer where
  summonerName : String := ""
  championName : String := ""
  teamId : Nat := 0
  kills : Nat := 0
  deaths : Nat := 0
  assists : Nat := 0
  role : String := ""
  isCurrentPlayer : Bool := false
  puuid : String := ""
deriving Repr, DecidableEq

/-- Build one `allPlayers` entry (`p.riotIdGameName || p.summonerName`
keeps `summonerName` when `riotIdGameName` is absent/empty). -/
def toTeamPlayer (puuid : String) (p : Participant) : TeamPlayer :=
  { summonerName := if p.riotIdGameName = "" then p.summonerName else p.riotIdGameName
    championName := p.championName
    teamId := p.teamId
    kills := p.kills
    deaths := p.deaths
    assists := p.assists
    role := getRole p
    isCurrentPlayer := p.puuid == puuid
    puuid := p.puuid }

/-- `roleOrder` from the source. -/
def roleOrder : List String := ["top", "jungle", "mid", "adc", "support"]

/-- `Array.prototype.indexOf`: index of the first occurrence, `-1` when
absent. -/
def jsIndexOf (l : List String) (s : String) : Int :=
  match l.findIdx? (fun x => x == s) with
  | some i => (i : Int)
  | none => -1

/-- The preorder induced by the comparator
`(a, b) => roleOrder.indexOf(a.role) - roleOrder.indexOf(b.role)`. -/
def roleLE (a b : TeamPlayer) : Prop :=
  jsIndexOf roleOrder a.role ≤ jsIndexOf roleOrder b.role

instance : DecidableRel roleLE := fun a b =>
  inferInstanceAs (Decidable (jsIndexOf roleOrder a.role ≤ jsIndexOf roleOrder b.role))

instance : IsTotal TeamPlayer roleLE := ⟨fun _ _ => le_total _ _⟩

instance : IsTrans TeamPlayer roleLE := ⟨fun _ _ _ => le_trans⟩

/-- `team.sort(sortByRole)`: the ECMAScript stable sort with the role
comparator, embedded as a stable insertion sort. -/
def sortByRole (team : List TeamPlayer) : List TeamPlayer :=
  List.insertionSort roleLE team

/-- The remake flag of a match. -/
def isRemake (m : MatchData) : Bool :=
  decide (m.info.gameDuration < 180)
    || (m.info.gameMode == "PRACTICETOOL")
    || (m.info.gameType == "CUSTOM_GAME")
    || (m.info.gameMode == "TUTORIAL")

end HistoryHelpers

section HistoryHandler

/-!
## The history route handler (`POST`, src/app/api/lol-history/route.ts)

The handler is embedded as a function of the request body and of the
upstream behaviour for this request.  Besides the response it returns
the list of upstream calls it issued, in order.
-/

/-- One entry of a `MatchSummary`'s processed shape. -/
structure MatchSummary where
  win : Bool
  champion : String
  blueTeam : List TeamPlayer
  redTeam : List TeamPlayer
  gameMode : String
  gameDuration : String
  gameDurationSeconds : Nat
  timeAgo : String
  isRemake : Bool
  matchId : String
deriving Repr, DecidableEq

/-- Build the summary of one match for the participant record found for
the requesting player. -/
def buildSummary (now : Int) (puuid : String) (m : MatchData) (participant : Participant) :
    MatchSummary :=
  let allPlayers := m.info.participants.map (toTeamPlayer puuid)
  let blueTeam := allPlayers.filter (fun p => p.teamId == 100)
  let redTeam := allPlayers.filter (fun p => p.teamId == 200)
  { win := participant.win
    champion := participant.championName
    blueTeam := sortByRole blueTeam
    redTeam := sortByRole redTeam
    gameMode := getGameModeName m.info.queueId m.info.gameMode
    gameDuration := formatGameDuration m.info.gameDuration
    gameDurationSeconds := m.info.gameDuration
    timeAgo := getTimeAgo now m.info.gameCreation
    isRemake := isRemake m
    matchId := m.metadataMatchId }

/-- Process one fetched match.  `none` embeds the `TypeError` thrown when
`participants.find(...)` comes back `undefined` and `participant.win` is
dereferenced. -/
def summarizeMatch (now : Int) (puuid : String) (m : MatchData) : Option MatchSummary :=
  (m.info.participants.find? (fun p => p.puuid == puuid)).map (buildSummary now puuid m)

/-- `Array.prototype.map` with a body that can throw: the whole mapping
aborts (propagating the exception) as soon as one element throws. -/
def mapOrThrow (f : α → Option β) : List α → Option (List β)
  | [] => some []
  | x :: xs =>
    match f x with
    | none => none
    | some y => (mapOrThrow f xs).map (y :: ·)

/-- Upstream behaviour seen by one history request: the account-lookup
response, the match-ids response, and for each match id either the match
payload or `none` for a non-success detail response. -/
structure HistoryUpstream where
  accountResp : Resp
  accountPuuid : String
  matchIdsResp : Resp
  matchIds : List String
  matchById : String → Option MatchData

/-- An upstream call issued by the history handler. -/
inductive UpCall where
  | account
  | matchIdsCall
  | matchCall (id : String)
deriving Repr, DecidableEq

/-- The response of the history handler. -/
inductive HistoryResult where
  | badRequest
  | accountNotFound
  | matchIdsError
  | internalError
  | ok (ms : List MatchSummary)
deriving Repr, DecidableEq

/-- HTTP status of each history response. -/
def historyStatus : HistoryResult → Nat
  | .badRequest => 400
  | .accountNotFound => 404
  | .matchIdsError => 500
  | .internalError => 500
  | .ok _ => 200

/-- The history `POST` handler: validation, account lookup, match-id
lookup, concurrent detail fetches, then per-match summarisation inside
the `try` block.  The second component lists the upstream calls issued. -/
def historyHandler (now : Int) (gameName tagLine : String) (u : HistoryUpstream) :
    HistoryResult × List UpCall :=
  if gameName = "" ∨ tagLine = "" then (.badRequest, [])
  else if ¬ u.accountResp.ok then (.accountNotFound, [.account])
  else if ¬ u.matchIdsResp.ok then (.matchIdsError, [.account, .matchIdsCall])
  else
    let calls := [UpCall.account, UpCall.matchIdsCall] ++ u.matchIds.map UpCall.matchCall
    match mapOrThrow (summarizeMatch now u.accountPuuid) (u.matchIds.filterMap u.matchById) with
    | none => (.internalError, calls)
    | some ms => (.ok ms, calls)

end HistoryHandler

section MatchDetails

/-!
## The match-details handler (second `POST` of src/app/api/lol-history/route.ts)
-/

/-- A timeline event as delivered by the upstream timeline endpoint;
`none` embeds an absent JSON field. -/
structure TimelineEvent where
  eventType : String := ""
  participantId : Option Int := none
  killerId : Option Int := none
  victimId : Option Int := none
  assistingParticipantIds : List Int := []
  realTimestamp : Option Int := none
deriving Repr, DecidableEq

/-- One frame of the timeline. -/
structure Frame where
  timestamp : Int := 0
  events : List TimelineEvent := []
deriving Repr, DecidableEq

/-- An event as returned to the client: the raw event spread together
with the frame timestamp and the defaulted `realTimestamp`. -/
structure OutEvent where
  event : TimelineEvent
  timestamp : Int
  realTimestamp : Int
deriving Repr, DecidableEq

/-- `event.realTimestamp || frame.timestamp` (`0` is falsy in JS). -/
def jsOrTimestamp (o : Option Int) (d : Int) : Int :=
  match o with
  | some t => if t = 0 then d else t
  | none => d

/-- Step 5 of the handler: keep every event referencing the player and
flatten frame by frame. -/
def playerTimeline (playerId : Int) (frames : List Frame) : List OutEvent :=
  frames.flatMap fun frame =>
    (frame.events.filter fun e =>
        e.participantId == some playerId
          || e.killerId == some playerId
          || e.victimId == some playerId
          || e.assistingParticipantIds.contains playerId).map
      fun e => ⟨e, frame.timestamp, jsOrTimestamp e.realTimestamp frame.timestamp⟩

/-- The `playerStats` object of the match-details response. -/
structure PlayerStatsOut where
  kills : Nat
  deaths : Nat
  assists : Nat
  kda : String
  totalDamageDealtToChampions : Nat
  physicalDamageDealtToChampions : Nat
  magicDamageDealtToChampions : Nat
  trueDamageDealtToChampions : Nat
  goldEarned : Nat
  goldSpent : Nat
  visionScore : Nat
  wardsPlaced : Nat
  wardsKilled : Nat
  totalMinionsKilled : Nat
  neutralMinionsKilled : Nat
  csPerMinute : String
  items : List Nat
  summoner1Id : Nat
  summoner2Id : Nat
  championName : String
  championLevel : Nat
  championTransform : Nat
  teamPosition : String
  individualPosition : String
  win : Bool
  gameDuration : Nat
  gameMode : String
  queueId : Nat
deriving Repr, DecidableEq

/-- Step 4 of the handler: derived statistics of the target player. -/
def computePlayerStats (m : MatchData) (p : Participant) : PlayerStatsOut :=
  { kills := p.kills
    deaths := p.deaths
    assists := p.assists
    kda :=
      if p.kills + p.assists > 0 then
        jsToFixed 2 (((p.kills + p.assists : Nat) : ℚ) / ((max p.deaths 1 : Nat) : ℚ))
      else "0.00"
    totalDamageDealtToChampions := p.totalDamageDealtToChampions
    physicalDamageDealtToChampions := p.physicalDamageDealtToChampions
    magicDamageDealtToChampions := p.magicDamageDealtToChampions
    trueDamageDealtToChampions := p.trueDamageDealtToChampions
    goldEarned := p.goldEarned
    goldSpent := p.goldSpent
    visionScore := p.visionScore
    wardsPlaced := p.wardsPlaced
    wardsKilled := p.wardsKilled
    totalMinionsKilled := p.totalMinionsKilled
    neutralMinionsKilled := p.neutralMinionsKilled
    csPerMinute :=
      jsToFixed 1
        (((p.totalMinionsKilled + p.neutralMinionsKilled : Nat) : ℚ) /
          ((m.info.gameDuration : ℚ) / 60))
    items :=
      [p.item0, p.item1, p.item2, p.item3, p.item4, p.item5, p.item6].filter
        fun item => item ≠ 0
    summoner1Id := p.summoner1Id
    summoner2Id := p.summoner2Id
    championName := p.championName
    championLevel := p.champLevel
    championTransform := p.championTransform
    teamPosition := p.teamPosition
    individualPosition := p.individualPosition
    win := p.win
    gameDuration := m.info.gameDuration
    gameMode := m.info.gameMode
    queueId := m.info.queueId }

/-- One entry of the `teamObjectives` array of the response. -/
structure TeamObjOut where
  teamId : Nat
  win : Bool
  objectives : Objectives
deriving Repr, DecidableEq

/-- Step 6 of the handler. -/
def computeTeamObjectives (m : MatchData) : List TeamObjOut :=
  m.info.teams.map fun t => ⟨t.teamId, t.win, t.objectives⟩

/-- The `matchInfo` block of the response. -/
structure MatchInfoOut where
  gameCreation : Int
  gameDuration : Nat
  gameMode : String
  queueId : Nat
deriving Repr, DecidableEq

/-- Upstream behaviour seen by one match-details request. -/
structure MDUpstream where
  matchResp : Resp
  matchData : MatchData
  timelineResp : Resp
  timelineFrames : List Frame

/-- The response of the match-details handler. -/
inductive MDResult where
  | badRequest
  | matchNotFound
  | playerNotFound
  | ok (playerStats : PlayerStatsOut) (playerTimelineEvents : List OutEvent)
      (teamObjectives : List TeamObjOut) (matchInfo : MatchInfoOut)
deriving Repr, DecidableEq

/-- HTTP status of each match-details response. -/
def mdStatus : MDResult → Nat
  | .badRequest => 400
  | .matchNotFound => 404
  | .playerNotFound => 404
  | .ok _ _ _ _ => 200

/-- The match-details `POST` handler. -/
def mdHandler (matchId puuid : String) (u : MDUpstream) : MDResult :=
  if matchId = "" ∨ puuid = "" then .badRequest
  else if ¬ u.matchResp.ok then .matchNotFound
  else
    let timelineData : Option (List Frame) :=
      if u.timelineResp.ok then some u.timelineFrames else none
    match u.matchData.info.participants.find? (fun p => p.puuid == puuid) with
    | none => .playerNotFound
    | some currentPlayer =>
      let pt : List OutEvent :=
        match timelineData with
        | some frames => playerTimeline currentPlayer.participantId frames
        | none => []
      .ok (computePlayerStats u.matchData currentPlayer) pt
        (computeTeamObjectives u.matchData)
        ⟨u.matchData.info.gameCreation, u.matchData.info.gameDuration,
         u.matchData.info.gameMode, u.matchData.info.queueId⟩

end MatchDetails

section StatsHandler

/-!
## The player-stats route handler (`POST`, src/app/api/lol-player-stats/route.ts)
-/

/-- The running per-champion accumulator (`championStats[name]`). -/
structure ChampStats where
  wins : Nat := 0
  losses : Nat := 0
  totalDamage : Nat := 0
  totalGold : Nat := 0
deriving Repr, DecidableEq

/-- Update or append the entry for key `k` in the accumulator object,
preserving JS object insertion order (string keys keep first-insertion
order, an update rewrites in place). -/
def setAssoc (l : List (String × ChampStats)) (k : String) (v : ChampStats) :
    List (String × ChampStats) :=
  if l.any (fun e => e.1 == k) then
    l.map fun e => if e.1 == k then (k, v) else e
  else l ++ [(k, v)]

/-- The `forEach` body accumulating one match into `championStats`. -/
def addMatchToStats (puuid : String) (acc : List (String × ChampStats)) (m : MatchData) :
    List (String × ChampStats) :=
  match m.info.participants.find? (fun p => p.puuid == puuid) with
  | none => acc
  | some p =>
    let name := p.championName
    let cur : ChampStats :=
      match acc.find? (fun e => e.1 == name) with
      | some e => e.2
      | none => {}
    setAssoc acc name
      { wins := cur.wins + (if p.win then 1 else 0)
        losses := cur.losses + (if p.win then 0 else 1)
        totalDamage := cur.totalDamage + p.totalDamageDealtToChampions
        totalGold := cur.totalGold + p.goldEarned }

/-- `championStats` after folding all successfully fetched matches. -/
def championStats (puuid : String) (ms : List MatchData) : List (String × ChampStats) :=
  ms.foldl (addMatchToStats puuid) []

/-- One row of the `winrates` array of the response. -/
structure WinrateRow where
  champion : String
  wins : Nat
  losses : Nat
  winrate : String
  totalGames : Nat
  avgDamage : Int
  avgGold : Int
deriving Repr, DecidableEq

/-- Convert one accumulator entry into a response row. -/
def toWinrateRow (e : String × ChampStats) : WinrateRow :=
  let games := e.2.wins + e.2.losses
  { champion := e.1
    wins := e.2.wins
    losses := e.2.losses
    winrate :=
      if games > 0 then jsToFixed 1 ((e.2.wins : ℚ) / (games : ℚ) * 100) else "0.0"
    totalGames := games
    avgDamage := jsRound ((e.2.totalDamage : ℚ) / (games : ℚ))
    avgGold := jsRound ((e.2.totalGold : ℚ) / (games : ℚ)) }

/-- `Number(s)` in tenths, for the strings of shape `"<int>.<digit>"`
produced by `toFixed(1)` (the only strings the winrate comparator ever
sees). -/
def parseTenths (s : String) : Int :=
  match s.splitOn "." with
  | [a, b] => ((a.toNat?).getD 0 : Int) * 10 + ((b.toNat?).getD 0 : Int)
  | [a] => ((a.toNat?).getD 0 : Int) * 10
  | _ => 0

/-- The preorder induced by the descending winrate comparator
`(a, b) => Number(b.winrate) - Number(a.winrate)`. -/
def winrateGE (a b : WinrateRow) : Prop :=
  parseTenths b.winrate ≤ parseTenths a.winrate

instance : DecidableRel winrateGE := fun a b =>
  inferInstanceAs (Decidable (parseTenths b.winrate ≤ parseTenths a.winrate))

instance : IsTotal WinrateRow winrateGE := ⟨fun _ _ => le_total _ _⟩

instance : IsTrans WinrateRow winrateGE :=
  ⟨fun _ _ _ h h' => le_trans h' h⟩

/-- The full winrate computation: fold, convert, and stable-sort
descending by win percentage. -/
def computeWinrates (puuid : String) (ms : List MatchData) : List WinrateRow :=
  List.insertionSort winrateGE ((championStats puuid ms).map toWinrateRow)

/-- Upstream behaviour seen by one player-stats request.  Endpoint
responses are per-fetch-attempt sequences because every call goes
through `fetchWithRetry`; match-detail fetches are reduced to their
post-retry outcome. -/
structure StatsUpstream where
  account : Nat → Resp
  accountPuuid : String
  summoner : Nat → Resp
  mastery : Nat → Resp
  masteryBody : List String
  ranked : Nat → Resp
  rankedBody : List String
  matchIdsResp : Nat → Resp
  matchIds : List String
  matchById : String → Option MatchData

/-- The response of the player-stats handler. -/
inductive StatsResult where
  | badRequest
  | rateLimited
  | accountNotFound
  | summonerNotFound
  | ok (mastery : List String) (ranked : List String) (winrates : List WinrateRow)
deriving Repr, DecidableEq

/-- HTTP status of each player-stats response. -/
def statsStatus : StatsResult → Nat
  | .badRequest => 400
  | .rateLimited => 429
  | .accountNotFound => 404
  | .summonerNotFound => 404
  | .ok _ _ _ => 200

/-- The player-stats `POST` handler. -/
def statsHandler (gameName tagLine : String) (u : StatsUpstream) : StatsResult :=
  if gameName = "" ∨ tagLine = "" then .badRequest
  else
    let accountRes := (fetchWithRetry u.account).resp
    if ¬ accountRes.ok then
      if accountRes.status = 429 then .rateLimited else .accountNotFound
    else
      let summonerRes := (fetchWithRetry u.summoner).resp
      if ¬ summonerRes.ok then .summonerNotFound
      else
        let masteryData := if (fetchWithRetry u.mastery).resp.ok then u.masteryBody else []
        let rankedData := if (fetchWithRetry u.ranked).resp.ok then u.rankedBody else []
        let winrateData :=
          if (fetchWithRetry u.matchIdsResp).resp.ok then
            computeWinrates u.accountPuuid ((u.matchIds.take 10).filterMap u.matchById)
          else []
        .ok masteryData rankedData winrateData

end StatsHandler

section Helpers

/-- `mapOrThrow` propagates the exception of any element of the list. -/
theorem mapOrThrow_eq_none_of_mem {α β : Type} {f : α → Option β} {l : List α} {x : α}
    (hx : x ∈ l) (hfx : f x = none) : mapOrThrow f l = none := by
  induction l with
  | nil => cases hx
  | cons y ys ih =>
    rcases List.mem_cons.mp hx with rfl | h
    · simp [mapOrThrow, hfx]
    · cases hfy : f y with
      | none => simp [mapOrThrow, hfy]
      | some v => simp [mapOrThrow, hfy, ih h]

/-- When no element throws, `mapOrThrow` is the total map, i.e. the
`filterMap` of its body. -/
theorem mapOrThrow_eq_some_filterMap {α β : Type} {f : α → Option β} {l : List α}
    (h : ∀ x ∈ l, (f x).isSome) : mapOrThrow f l = some (l.filterMap f) := by
  induction l with
  | nil => simp [mapOrThrow]
  | cons y ys ih =>
    have hy := h y (List.mem_cons_self y ys)
    cases hfy : f y with
    | none => rw [hfy] at hy; cases hy
    | some v =>
      have := ih fun x hx => h x (List.mem_cons_of_mem y hx)
      simp [mapOrThrow, hfy, this]

end Helpers

/-- C1: the retry wrapper as the spec states it — up to 3 attempts with
linear 2s/4s/6s backoff, the final attempt's response returned when all
attempts are rate-limited.  The code instead issues a fourth, unbudgeted
`fetch` after the loop (its comment says "return the last response"),
and returns that fresh response: under all-429 responses it issues 4
fetches, and if the fourth attempt succeeds it even returns a success. -/
theorem C1_retry_allRateLimited_issues_fourth_fetch :
    fetchWithRetry (fun _ => ⟨429⟩) =
      { resp := ⟨429⟩, fetches := 4, waitsMs := [2000, 4000, 6000] } ∧
    fetchWithRetry (fun n => if n ≤ 3 then ⟨429⟩ else ⟨200⟩) =
      { resp := ⟨200⟩, fetches := 4, waitsMs := [2000, 4000, 6000] } := by
  exact ⟨rfl, rfl⟩

/-- C9: a match is flagged remake exactly when its duration is below 180
seconds or its game mode/type is in the non-competitive set (practice
tool, custom game, tutorial); the flag does not depend on the
participants (hence not on the outcome). -/
theorem C9_isRemake_iff : ∀ m : MatchData,
    (isRemake m = true ↔
      (m.info.gameDuration < 180 ∨ m.info.gameMode = "PRACTICETOOL" ∨
        m.info.gameType = "CUSTOM_GAME" ∨ m.info.gameMode = "TUTORIAL")) ∧
    ∀ ps : List Participant,
      isRemake { m with info := { m.info with participants := ps } } = isRemake m := by
  intro m
  constructor
  · simp [isRemake, Bool.or_eq_true, decide_eq_true_eq, or_assoc]
  · intro ps
    rfl

/-- C10: the match-details handler computes the KDA ratio as
`(kills + assists) / max(deaths, 1)` rendered by `toFixed(2)` for every
participant (the `kills + assists = 0` special case yields the same
`"0.00"` the formula does), so `deaths = 0` never divides by zero; in
particular kills=5, assists=7, deaths=0 gives `"12.00"`. -/
theorem C10_kda_formula :
    (∀ (m : MatchData) (p : Participant),
      (computePlayerStats m p).kda =
        jsToFixed 2 (((p.kills + p.assists : Nat) : ℚ) / ((max p.deaths 1 : Nat) : ℚ))) ∧
    (computePlayerStats {} { kills := 5, assists := 7, deaths := 0 }).kda = "12.00" := by
  constructor
  · intro m p
    by_cases h : p.kills + p.assists > 0
    · simp [computePlayerStats, h]
    · have hk : p.kills = 0 := by omega
      have ha : p.assists = 0 := by omega
      simp only [computePlayerStats, h, if_false, hk, ha]
      have h0 : ((0 + 0 : Nat) : ℚ) / ((max p.deaths 1 : Nat) : ℚ) = 0 := by
        norm_num
      rw [h0]
      norm_num [jsToFixed, jsRound]
      decide
  · show (if 5 + 7 > 0 then
        jsToFixed 2 (((5 + 7 : Nat) : ℚ) / ((max 0 1 : Nat) : ℚ)) else "0.00") = "12.00"
    norm_num [jsToFixed, jsRound]
    decide

/-- Upstream behaviour where the account lookup is rate-limited (429);
used to refute the retry clause of the history handler's contract. -/
def rateLimitedAccountUpstream : HistoryUpstream :=
  { accountResp := ⟨429⟩
    accountPuuid := "puuid-1"
    matchIdsResp := ⟨200⟩
    matchIds := []
    matchById := fun _ => none }

/-- C3 counterexample: on a 429 account-lookup response the history
handler does NOT trigger the retry policy — it issues exactly one
account call and maps the status directly to `NotFound`. -/
theorem C3_counterexample_429_not_retried :
    historyHandler 0 "Name" "TAG" rateLimitedAccountUpstream =
      (.accountNotFound, [.account]) ∧
    (historyHandler 0 "Name" "TAG" rateLimitedAccountUpstream).2.count .account = 1 := by
  exact ⟨rfl, rfl⟩

/-- C3 (amended): in the History Aggregator every non-success account
lookup status — including 429, which is not special-cased and not
retried — yields a single `NotFound` (404) response after exactly one
upstream call. -/
theorem C3_amended_any_failure_is_single_notFound :
    ∀ (now : Int) (gameName tagLine : String) (u : HistoryUpstream),
      gameName ≠ "" → tagLine ≠ "" → u.accountResp.ok = false →
      historyHandler now gameName tagLine u = (.accountNotFound, [.account]) ∧
      historyStatus (historyHandler now gameName tagLine u).1 = 404 := by
  intro now gameName tagLine u hg ht hok
  have hcond : ¬(gameName = "" ∨ tagLine = "") := by
    intro h; rcases h with h | h
    · exact hg h
    · exact ht h
  have : historyHandler now gameName tagLine u = (.accountNotFound, [.account]) := by
    rw [historyHandler, if_neg hcond, if_pos]
    simp [hok]
  exact ⟨this, by rw [this]; rfl⟩

/-- Witness for C3: a concrete 500 account response also yields the
single `NotFound` with one upstream call. -/
theorem C3_witness :
    historyHandler 7 "Alice" "NA1"
        { accountResp := ⟨500⟩, accountPuuid := "p", matchIdsResp := ⟨200⟩,
          matchIds := ["m"], matchById := fun _ => none } =
      (.accountNotFound, [.account]) ∧
    historyStatus (historyHandler 7 "Alice" "NA1"
        { accountResp := ⟨500⟩, accountPuuid := "p", matchIdsResp := ⟨200⟩,
          matchIds := ["m"], matchById := fun _ => none }).1 = 404 :=
  C3_amended_any_failure_is_single_notFound 7 "Alice" "NA1" _
    (by decide) (by decide) (by decide)

/-- C5: when a successfully fetched match does not contain the
requesting player, the per-match mapping dereferences `undefined` and
the whole history handler answers with the `Internal` (500) error
instead of dropping only that match. -/
theorem C5_missing_participant_fails_whole_handler :
    ∀ (now : Int) (gameName tagLine : String) (u : HistoryUpstream) (m : MatchData),
      gameName ≠ "" → tagLine ≠ "" →
      u.accountResp.ok = true → u.matchIdsResp.ok = true →
      m ∈ u.matchIds.filterMap u.matchById →
      m.info.participants.find? (fun p => p.puuid == u.accountPuuid) = none →
      (historyHandler now gameName tagLine u).1 = .internalError ∧
      historyStatus (historyHandler now gameName tagLine u).1 = 500 := by
  intro now gameName tagLine u m hg ht hok1 hok2 hmem hfind
  have hcond : ¬(gameName = "" ∨ tagLine = "") := by
    intro h; rcases h with h | h
    · exact hg h
    · exact ht h
  have hsumm : summarizeMatch now u.accountPuuid m = none := by
    rw [summarizeMatch, hfind]; rfl
  have hmap :
      mapOrThrow (summarizeMatch now u.accountPuuid) (u.matchIds.filterMap u.matchById) =
        none :=
    mapOrThrow_eq_none_of_mem hmem hsumm
  rw [historyHandler, if_neg hcond, if_neg (by simp [hok1]), if_neg (by simp [hok2])]
  simp [hmap, historyStatus]

/-- A fetched match in which the requesting player `"P"` does not
appear. -/
def matchWithoutPlayer : MatchData :=
  { metadataMatchId := "m1"
    info := { participants := [{ puuid := "Q" }] } }

/-- Upstream behaviour delivering only `matchWithoutPlayer`. -/
def missingPlayerUpstream : HistoryUpstream :=
  { accountResp := ⟨200⟩
    accountPuuid := "P"
    matchIdsResp := ⟨200⟩
    matchIds := ["m1"]
    matchById := fun _ => some matchWithoutPlayer }

/-- Witness for C5. -/
theorem C5_witness :
    (historyHandler 0 "Alice" "NA1" missingPlayerUpstream).1 = .internalError ∧
    historyStatus (historyHandler 0 "Alice" "NA1" missingPlayerUpstream).1 = 500 :=
  C5_missing_participant_fails_whole_handler 0 "Alice" "NA1"
    missingPlayerUpstream matchWithoutPlayer
    (by decide) (by decide) (by decide) (by decide) (by decide) (by decide)

/-- C7: when every fetched match contains the requesting player, matches
whose detail fetch failed are silently dropped and the result follows
the upstream match-id order — the response is the in-order `filterMap`
of the match-id list, with no additional sort applied. -/
theorem C7_failed_details_dropped_order_preserved :
    ∀ (now : Int) (gameName tagLine : String) (u : HistoryUpstream),
      gameName ≠ "" → tagLine ≠ "" →
      u.accountResp.ok = true → u.matchIdsResp.ok = true →
      (∀ m ∈ u.matchIds.filterMap u.matchById,
        (m.info.participants.find? (fun p => p.puuid == u.accountPuuid)).isSome) →
      (historyHandler now gameName tagLine u).1 =
        .ok (u.matchIds.filterMap fun id =>
          (u.matchById id).bind (summarizeMatch now u.accountPuuid)) := by
  intro now gameName tagLine u hg ht hok1 hok2 hall
  have hcond : ¬(gameName = "" ∨ tagLine = "") := by
    intro h; rcases h with h | h
    · exact hg h
    · exact ht h
  have hall' : ∀ m ∈ u.matchIds.filterMap u.matchById,
      (summarizeMatch now u.accountPuuid m).isSome := by
    intro m hm
    rcases Option.isSome_iff_exists.mp (hall m hm) with ⟨p, hp⟩
    rw [summarizeMatch, hp]
    rfl
  have hmap :
      mapOrThrow (summarizeMatch now u.accountPuuid) (u.matchIds.filterMap u.matchById) =
        some ((u.matchIds.filterMap u.matchById).filterMap
          (summarizeMatch now u.accountPuuid)) :=
    mapOrThrow_eq_some_filterMap hall'
  rw [historyHandler, if_neg hcond, if_neg (by simp [hok1]), if_neg (by simp [hok2])]
  simp [hmap, List.filterMap_filterMap]

/-- A fetched match containing the requesting player `"P"` (id `m1`). -/
def historyMatchA : MatchData :=
  { metadataMatchId := "m1"
    info := { participants := [{ puuid := "P", championName := "Ahri",
                                 teamId := 100, teamPosition := "MIDDLE", win := true }]
              gameDuration := 1500
              gameMode := "CLASSIC"
              gameType := "MATCHED_GAME"
              gameCreation := 0
              queueId := 420 } }

/-- A second fetched match containing the requesting player (id `m3`). -/
def historyMatchB : MatchData :=
  { metadataMatchId := "m3"
    info := { participants := [{ puuid := "P", championName := "Lux",
                                 teamId := 200, teamPosition := "UTILITY", win := false }]
              gameDuration := 900
              gameMode := "CLASSIC"
              gameType := "MATCHED_GAME"
              gameCreation := 0
              queueId := 420 } }

/-- Upstream behaviour in which the detail fetch of `m2` fails while
`m1` and `m3` succeed. -/
def droppedDetailUpstream : HistoryUpstream :=
  { accountResp := ⟨200⟩
    accountPuuid := "P"
    matchIdsResp := ⟨200⟩
    matchIds := ["m1", "m2", "m3"]
    matchById := fun id =>
      if id = "m1" then some historyMatchA
      else if id = "m3" then some historyMatchB
      else none }

/-- Witness for C7: `m2` is dropped, `m1` and `m3` survive in order. -/
theorem C7_witness :
    (historyHandler 0 "Alice" "NA1" droppedDetailUpstream).1 =
      .ok (droppedDetailUpstream.matchIds.filterMap fun id =>
        (droppedDetailUpstream.matchById id).bind (summarizeMatch 0 "P")) :=
  C7_failed_details_dropped_order_preserved 0 "Alice" "NA1" droppedDetailUpstream
    (by decide) (by decide) (by decide) (by decide) (by decide)

/-- C8: when the timeline fetch fails while the match fetch succeeds and
the player is found, the match-details handler still answers success,
with an empty `playerTimelineEvents` and all other blocks computed
normally from the match payload. -/
theorem C8_timeline_failure_degrades_to_empty :
    ∀ (matchId puuid : String) (u : MDUpstream) (p : Participant),
      matchId ≠ "" → puuid ≠ "" →
      u.matchResp.ok = true → u.timelineResp.ok = false →
      u.matchData.info.participants.find? (fun q => q.puuid == puuid) = some p →
      mdHandler matchId puuid u =
        .ok (computePlayerStats u.matchData p) []
          (computeTeamObjectives u.matchData)
          ⟨u.matchData.info.gameCreation, u.matchData.info.gameDuration,
           u.matchData.info.gameMode, u.matchData.info.queueId⟩ ∧
      mdStatus (mdHandler matchId puuid u) = 200 := by
  intro matchId puuid u p hm hp hok htl hfind
  have hcond : ¬(matchId = "" ∨ puuid = "") := by
    intro h; rcases h with h | h
    · exact hm h
    · exact hp h
  have heq : mdHandler matchId puuid u =
      .ok (computePlayerStats u.matchData p) []
        (computeTeamObjectives u.matchData)
        ⟨u.matchData.info.gameCreation, u.matchData.info.gameDuration,
         u.matchData.info.gameMode, u.matchData.info.queueId⟩ := by
    rw [mdHandler, if_neg hcond, if_neg (by simp [hok])]
    simp [hfind, htl]
  exact ⟨heq, by rw [heq]; rfl⟩

/-- A match payload whose single participant is the target player. -/
def detailMatch : MatchData :=
  { metadataMatchId := "m9"
    info := { participants := [{ puuid := "P", championName := "Ahri",
                                 kills := 5, assists := 7, deaths := 0,
                                 participantId := 3 }]
              gameDuration := 1800
              gameMode := "CLASSIC"
              gameType := "MATCHED_GAME"
              gameCreation := 424242
              queueId := 420
              teams := [{ teamId := 100, win := true }] } }

/-- Upstream behaviour with a failing timeline endpoint but non-empty
frames on the wire (they must be ignored). -/
def failingTimelineUpstream : MDUpstream :=
  { matchResp := ⟨200⟩
    matchData := detailMatch
    timelineResp := ⟨503⟩
    timelineFrames := [{ timestamp := 60000,
                         events := [{ eventType := "CHAMPION_KILL",
                                      killerId := some 3 }] }] }

/-- Witness for C8. -/
theorem C8_witness :
    mdHandler "m9" "P" failingTimelineUpstream =
      .ok (computePlayerStats detailMatch
            { puuid := "P", championName := "Ahri",
              kills := 5, assists := 7, deaths := 0, participantId := 3 }) []
        (computeTeamObjectives detailMatch)
        ⟨detailMatch.info.gameCreation, detailMatch.info.gameDuration,
         detailMatch.info.gameMode, detailMatch.info.queueId⟩ ∧
    mdStatus (mdHandler "m9" "P" failingTimelineUpstream) = 200 :=
  C8_timeline_failure_degrades_to_empty "m9" "P" failingTimelineUpstream
    { puuid := "P", championName := "Ahri",
      kills := 5, assists := 7, deaths := 0, participantId := 3 }
    (by decide) (by decide) (by decide) (by decide) (by decide)

section SortStability

variable {α : Type} (r : α → α → Prop) [DecidableRel r]

/-- Inserting an element not satisfying `p` does not change the
`p`-filtered list. -/
theorem filter_orderedInsert_of_neg (p : α → Bool) (x : α) (hx : p x = false) :
    ∀ l : List α, (List.orderedInsert r x l).filter p = l.filter p := by
  intro l
  induction l with
  | nil => simp [List.orderedInsert, hx]
  | cons y ys ih =>
    by_cases h : r x y
    · simp [List.orderedInsert, if_pos h, List.filter_cons, hx]
    · rw [List.orderedInsert, if_neg h, List.filter_cons, List.filter_cons, ih]

/-- Inserting an element satisfying `p` that relates (under `r`) to every
`p`-element of the list prepends it to the `p`-filtered list. -/
theorem filter_orderedInsert_of_pos (p : α → Bool) (x : α) (hx : p x = true) :
    ∀ l : List α, (∀ y ∈ l, p y = true → r x y) →
      (List.orderedInsert r x l).filter p = x :: l.filter p := by
  intro l
  induction l with
  | nil => intro _; simp [List.orderedInsert, hx]
  | cons y ys ih =>
    intro hall
    by_cases h : r x y
    · simp [List.orderedInsert, if_pos h, List.filter_cons, hx]
    · have hpy : p y = false := by
        by_contra hpy
        exact h (hall y (List.mem_cons_self y ys) (by simpa using hpy))
      rw [List.orderedInsert, if_neg h, List.filter_cons, hpy]
      simp only [Bool.false_eq_true, if_false]
      rw [ih (fun z hz hpz => hall z (List.mem_cons_of_mem y hz) hpz),
        List.filter_cons, hpy]
      simp

/-- Stability of insertion sort on a class of mutually `r`-related
elements: the `p`-filtered output equals the `p`-filtered input. -/
theorem filter_insertionSort (p : α → Bool)
    (hp : ∀ a b, p a = true → p b = true → r a b) :
    ∀ l : List α, (List.insertionSort r l).filter p = l.filter p := by
  intro l
  induction l with
  | nil => rfl
  | cons x xs ih =>
    by_cases hx : p x = true
    · rw [List.insertionSort,
        filter_orderedInsert_of_pos r p x hx _ (fun y _ hpy => hp x y hx hpy), ih,
        List.filter_cons, hx]
      simp
    · have hx' : p x = false := by simpa using hx
      rw [List.insertionSort, filter_orderedInsert_of_neg r p x hx', ih,
        List.filter_cons, hx']
      simp

end SortStability

/-- C2 counterexample: a participant with derived role `"unknown"` sorts
FIRST, not last — `indexOf` returns `-1` for a role outside
`roleOrder`, which precedes every canonical role index. -/
theorem C2_counterexample_unknown_sorts_first :
    sortByRole [{ role := "top" }, { role := "unknown" }] =
      [{ role := "unknown" }, { role := "top" }] ∧
    sortByRole [{ role := "top" }, { role := "unknown" }] ≠
      [{ role := "top" }, { role := "unknown" }] := by
  exact ⟨by decide, by decide⟩

/-- C2 (amended): each team list is stably sorted by the fixed role
order top, jungle, mid, adc, support — the output is sorted under the
comparator preorder and, for every role, the participants of that role
keep their relative input order (absent roles are simply omitted) — but
a participant whose derived role is `"unknown"` sorts FIRST within its
team (its comparator key is `-1`), not last.  The spec's example
`[support, top, jungle]` still sorts to `[top, jungle, support]`. -/
theorem C2_amended_role_sort_stable_unknown_first :
    (∀ team : List TeamPlayer,
      List.Sorted roleLE (sortByRole team) ∧
      ∀ ρ : String, (sortByRole team).filter (fun p => p.role == ρ) =
        team.filter (fun p => p.role == ρ)) ∧
    (∀ p q : TeamPlayer, p.role = "unknown" → roleLE p q) ∧
    sortByRole [{ role := "support" }, { role := "top" }, { role := "jungle" }] =
      [{ role := "top" }, { role := "jungle" }, { role := "support" }] := by
  refine ⟨fun team => ⟨List.sorted_insertionSort roleLE team, fun ρ => ?_⟩,
    fun p q hp => ?_, by decide⟩
  · exact filter_insertionSort roleLE (fun p => p.role == ρ)
      (fun a b ha hb => by
        have ha' : a.role = ρ := by simpa using ha
        have hb' : b.role = ρ := by simpa using hb
        unfold roleLE
        rw [ha', hb']) team
  · unfold roleLE
    rw [hp]
    have : jsIndexOf roleOrder "unknown" = -1 := by decide
    rw [this]
    unfold jsIndexOf
    cases h : roleOrder.findIdx? (fun x => x == q.role) with
    | none => simp
    | some i =>
      simp only []
      have : (-1 : Int) ≤ (i : Int) := by
        calc (-1 : Int) ≤ 0 := by norm_num
        _ ≤ (i : Int) := Int.ofNat_nonneg i
      simpa using this

/-- Witness for C2: the unknown-first fact at a concrete pair. -/
theorem C2_witness :
    roleLE { role := "unknown" } { role := "top" } :=
  C2_amended_role_sort_stable_unknown_first.2.1
    { role := "unknown" } { role := "top" } rfl

/-- Stats upstream behaviour: account lookup succeeds, summoner lookup
is persistently rate-limited (429 on every attempt, surviving the retry
wrapper). -/
def summonerRateLimitedUpstream : StatsUpstream :=
  { account := fun _ => ⟨200⟩
    accountPuuid := "P"
    summoner := fun _ => ⟨429⟩
    mastery := fun _ => ⟨200⟩
    masteryBody := []
    ranked := fun _ => ⟨200⟩
    rankedBody := []
    matchIdsResp := fun _ => ⟨200⟩
    matchIds := []
    matchById := fun _ => none }

/-- C4 counterexample: persistent rate-limiting of the summoner lookup
is mapped to `NotFound` (404, "Summoner not found"), not to the
distinguished `RateLimited` (429) condition the contract promises for
every required upstream call. -/
theorem C4_counterexample_summoner_429_is_404 :
    statsHandler "Name" "TAG" summonerRateLimitedUpstream = .summonerNotFound ∧
    statsStatus (statsHandler "Name" "TAG" summonerRateLimitedUpstream) = 404 ∧
    (fetchWithRetry summonerRateLimitedUpstream.summoner).resp.status = 429 := by
  exact ⟨rfl, rfl, rfl⟩

/-- C4 (amended): only the account lookup surfaces post-retry
rate-limiting as the distinguished `RateLimited` (429) condition; a
summoner lookup that fails after the retry wrapper — even with a 429
status — is mapped to `NotFound` (404). -/
theorem C4_amended_only_account_surfaces_429 :
    ∀ (gameName tagLine : String) (u : StatsUpstream),
      gameName ≠ "" → tagLine ≠ "" →
      (((fetchWithRetry u.account).resp.ok = false ∧
          (fetchWithRetry u.account).resp.status = 429) →
        statsHandler gameName tagLine u = .rateLimited ∧
        statsStatus (statsHandler gameName tagLine u) = 429) ∧
      ((fetchWithRetry u.account).resp.ok = true →
        (fetchWithRetry u.summoner).resp.ok = false →
        statsHandler gameName tagLine u = .summonerNotFound ∧
        statsStatus (statsHandler gameName tagLine u) = 404) := by
  intro gameName tagLine u hg ht
  have hcond : ¬(gameName = "" ∨ tagLine = "") := by
    intro h; rcases h with h | h
    · exact hg h
    · exact ht h
  constructor
  · rintro ⟨hok, h429⟩
    have heq : statsHandler gameName tagLine u = .rateLimited := by
      rw [statsHandler, if_neg hcond]
      simp [hok, h429]
    exact ⟨heq, by rw [heq]; rfl⟩
  · intro hok hsok
    have heq : statsHandler gameName tagLine u = .summonerNotFound := by
      rw [statsHandler, if_neg hcond]
      simp [hok, hsok]
    exact ⟨heq, by rw [heq]; rfl⟩

/-- Stats upstream behaviour whose account lookup is persistently
rate-limited. -/
def accountRateLimitedUpstream : StatsUpstream :=
  { account := fun _ => ⟨429⟩
    accountPuuid := "P"
    summoner := fun _ => ⟨200⟩
    mastery := fun _ => ⟨200⟩
    masteryBody := []
    ranked := fun _ => ⟨200⟩
    rankedBody := []
    matchIdsResp := fun _ => ⟨200⟩
    matchIds := []
    matchById := fun _ => none }

/-- Witness for C4: the account branch does surface 429. -/
theorem C4_witness :
    statsHandler "Name" "TAG" accountRateLimitedUpstream = .rateLimited ∧
    statsStatus (statsHandler "Name" "TAG" accountRateLimitedUpstream) = 429 :=
  (C4_amended_only_account_surfaces_429 "Name" "TAG" accountRateLimitedUpstream
    (by decide) (by decide)).1 ⟨by decide, by decide⟩

/-- Sample ranked match: the player wins on Ahri with 20000 damage and
10000 gold. -/
def ahriWinMatch : MatchData :=
  { metadataMatchId := "w1"
    info := { participants := [{ puuid := "P", championName := "Ahri", win := true,
                                 totalDamageDealtToChampions := 20000,
                                 goldEarned := 10000 }] } }

/-- Sample ranked match: the player loses on Ahri with 10000 damage and
8000 gold. -/
def ahriLossMatch : MatchData :=
  { metadataMatchId := "w2"
    info := { participants := [{ puuid := "P", championName := "Ahri", win := false,
                                 totalDamageDealtToChampions := 10000,
                                 goldEarned := 8000 }] } }

/-- C6: the champion-aggregate fold produces rows sorted descending by
win percentage, with `totalGames = wins + losses` in every row; on the
spec's two-Ahri-matches example it yields exactly
`{wins: 1, losses: 1, winrate: "50.0", totalGames: 2, avgDamage: 15000,
avgGold: 9000}`. -/
theorem C6_champion_aggregates :
    (∀ (puuid : String) (ms : List MatchData),
      List.Sorted winrateGE (computeWinrates puuid ms) ∧
      ∀ row ∈ computeWinrates puuid ms, row.totalGames = row.wins + row.losses) ∧
    computeWinrates "P" [ahriWinMatch, ahriLossMatch] =
      [{ champion := "Ahri", wins := 1, losses := 1, winrate := "50.0",
         totalGames := 2, avgDamage := 15000, avgGold := 9000 }] := by
  constructor
  · intro puuid ms
    refine ⟨List.sorted_insertionSort winrateGE _, fun row hrow => ?_⟩
    have hmem : row ∈ (championStats puuid ms).map toWinrateRow := by
      rw [computeWinrates] at hrow
      exact (List.mem_insertionSort winrateGE).mp hrow
    rcases List.mem_map.mp hmem with ⟨e, _, rfl⟩
    rfl
  · have hstats : championStats "P" [ahriWinMatch, ahriLossMatch] =
        [("Ahri", ⟨1, 1, 30000, 18000⟩)] := by decide
    have hrow : toWinrateRow ("Ahri", ⟨1, 1, 30000, 18000⟩) =
        { champion := "Ahri", wins := 1, losses := 1, winrate := "50.0",
          totalGames := 2, avgDamage := 15000, avgGold := 9000 } := by
      unfold toWinrateRow
      norm_num [jsToFixed, jsRound]
      decide
    rw [computeWinrates, hstats]
    simp [List.insertionSort, List.orderedInsert, hrow]

/-- Witness for C6: the membership-guarded invariant at the concrete
example row. -/
theorem C6_witness :
    ({ champion := "Ahri", wins := 1, losses := 1, winrate := "50.0",
       totalGames := 2, avgDamage := 15000, avgGold := 9000 } : WinrateRow).totalGames =
    ({ champion := "Ahri", wins := 1, losses := 1, winrate := "50.0",
       totalGames := 2, avgDamage := 15000, avgGold := 9000 } : WinrateRow).wins +
    ({ champion := "Ahri", wins := 1, losses := 1, winrate := "50.0",
       totalGames := 2, avgDamage := 15000, avgGold := 9000 } : WinrateRow).losses :=
  (C6_champion_aggregates.1 "P" [ahriWinMatch, ahriLossMatch]).2 _
    (by rw [C6_champion_aggregates.2]; exact List.mem_singleton_self _)
